import Mathlib

/-!
Shallow embedding of the failure-classification and TLS-negotiation layer of
the rust-postgres client (src/error.rs and src/tls/mod.rs), with theorems
settling the specification claims about it.

Payload types that come from outside src/ (the standard library's IoError,
openssl's SslError, the crate's DbError and Type) are modelled by their
observable content, since every claim treats them as opaque wrapped values.
-/

namespace RustPostgres

/-- Opaque model of std::old_io::IoError (external crate): an I/O failure,
carried and compared by content only. -/
structure IoError where
  content : String
deriving DecidableEq

/-- Opaque model of openssl's SslError (external crate): a TLS-layer failure,
carried and compared by content only. -/
structure SslError where
  content : String
deriving DecidableEq

/-- The position of an error in a query (src/error.rs, `ErrorPosition`). -/
inductive ErrorPosition where
  /-- A position in the original query. -/
  | Normal (posn : Nat)
  /-- A position in an internally generated query, together with that query. -/
  | Internal (posn : Nat) (query : String)
deriving DecidableEq

/-- Modelled from the spec: `DbError` lives in the `ugh_privacy` module, which is
not under src/. "The structured error a database server reports. Attributes: a
server-defined 5-character alphanumeric status code (the SQLSTATE),
human-readable message, severity level, optional detail/hint text, optional
position information, optional schema/table/column/constraint names." -/
structure DbError where
  code : String
  message : String
  severity : String
  detail : Option String
  hint : Option String
  position : Option ErrorPosition
  schema : Option String
  table : Option String
  column : Option String
  constraint : Option String
deriving DecidableEq

/-- Modelled from the spec: `Type` lives in the `types` module, which is not
under src/. A wire-protocol type descriptor, rendered into messages through its
Debug representation (the `:?` format used by `Error`'s Display impl). -/
structure PgType where
  debugRepr : String
deriving DecidableEq

/-- Reasons a new Postgres connection could fail (src/error.rs, `ConnectError`). -/
inductive ConnectError where
  /-- The provided URL could not be parsed. -/
  | InvalidUrl (msg : String)
  /-- The URL was missing a user. -/
  | MissingUser
  /-- An error from the Postgres server itself. -/
  | DbError (err : DbError)
  /-- A password was required but not provided in the URL. -/
  | MissingPassword
  /-- The Postgres server requested an authentication method not supported by the driver. -/
  | UnsupportedAuthentication
  /-- The Postgres server does not support SSL encryption. -/
  | NoSslSupport
  /-- There was an error initializing the SSL session. -/
  | SslError (err : SslError)
  /-- There was an error communicating with the server. -/
  | IoError (err : IoError)
  /-- The server sent an unexpected response. -/
  | BadResponse
deriving DecidableEq

/-- `ConnectError`'s `error::Error::description` (src/error.rs lines 50-64). -/
def ConnectError.description : ConnectError → String
  | .InvalidUrl _ => "Invalid URL"
  | .MissingUser => "User missing in URL"
  | .DbError _ => "An error from the Postgres server itself"
  | .MissingPassword => "The server requested a password but none was provided"
  | .UnsupportedAuthentication => "The server requested an unsupported authentication method"
  | .NoSslSupport => "The server does not support SSL"
  | .SslError _ => "Error initiating SSL session"
  | .IoError _ => "Error communicating with server"
  | .BadResponse => "The server returned an unexpected response"

/-- `ConnectError`'s `fmt::Display` (src/error.rs lines 39-47): write the
description, then for `InvalidUrl` append `": "` and the message. -/
def ConnectError.display (e : ConnectError) : String :=
  e.description ++
    match e with
    | .InvalidUrl msg => ": " ++ msg
    | _ => ""

/-- The dynamic cause object returned by the `cause` methods, identified by
which concrete failure the trait object points at. -/
inductive Cause where
  | db (err : DbError)
  | ssl (err : SslError)
  | ioErr (err : IoError)
deriving DecidableEq

/-- `ConnectError`'s `error::Error::cause` (src/error.rs lines 66-73). -/
def ConnectError.cause : ConnectError → Option Cause
  | .DbError err => some (.db err)
  | .SslError err => some (.ssl err)
  | .IoError err => some (.ioErr err)
  | _ => none

/-- `FromError<IoError> for ConnectError` (src/error.rs lines 76-80). -/
def ConnectError.from_error_io (err : RustPostgres.IoError) : ConnectError :=
  ConnectError.IoError err

/-- `FromError<DbError> for ConnectError` (src/error.rs lines 82-86). -/
def ConnectError.from_error_db (err : RustPostgres.DbError) : ConnectError :=
  ConnectError.DbError err

/-- `FromError<SslError> for ConnectError` (src/error.rs lines 88-92). -/
def ConnectError.from_error_ssl (err : RustPostgres.SslError) : ConnectError :=
  ConnectError.SslError err

/-- An error encountered when communicating with the Postgres server
(src/error.rs, `Error`). -/
inductive Error where
  /-- An error reported by the Postgres server. -/
  | DbError (err : DbError)
  /-- An error communicating with the Postgres server. -/
  | IoError (err : IoError)
  /-- The communication channel with the Postgres server has desynchronized
  due to an earlier communications error. -/
  | StreamDesynchronized
  /-- An attempt was made to convert between incompatible Rust and Postgres types. -/
  | WrongType (ty : PgType)
  /-- An attempt was made to read from a column that does not exist. -/
  | InvalidColumn
  /-- A value was NULL but converted to a non-nullable Rust type. -/
  | WasNull
  /-- The server returned an unexpected response. -/
  | BadResponse
  /-- The server provided data that the client could not parse. -/
  | BadData
deriving DecidableEq

/-- `Error`'s `error::Error::description` (src/error.rs lines 141-155). -/
def Error.description : Error → String
  | .DbError _ => "An error reported by the Postgres server"
  | .IoError _ => "An error communicating with the Postgres server"
  | .StreamDesynchronized =>
      "Communication with the server has desynchronized due to an earlier IO error"
  | .WrongType _ => "Unexpected type"
  | .InvalidColumn => "Invalid column"
  | .WasNull => "The value was NULL"
  | .BadResponse => "The server returned an unexpected response"
  | .BadData => "The server provided data that the client could not parse"

/-- `Error`'s `fmt::Display` (src/error.rs lines 131-139): write the
description, then for `WrongType` append `": saw type "` and the Debug
rendering of the carried type. -/
def Error.display (e : Error) : String :=
  e.description ++
    match e with
    | .WrongType ty => ": saw type " ++ ty.debugRepr
    | _ => ""

/-- `Error`'s `error::Error::cause` (src/error.rs lines 157-163). -/
def Error.cause : Error → Option Cause
  | .DbError err => some (.db err)
  | .IoError err => some (.ioErr err)
  | _ => none

/-- `FromError<DbError> for Error` (src/error.rs lines 166-170). -/
def Error.from_error_db (err : RustPostgres.DbError) : Error :=
  Error.DbError err

/-- `FromError<IoError> for Error` (src/error.rs lines 172-176). -/
def Error.from_error_io (err : RustPostgres.IoError) : Error :=
  Error.IoError err

/-!
## Desynchronization state machine

Modelled from the spec: the connection object that owns the desynchronization
flag lives in the connection module, which is not under src/; only the
terminal `Error::StreamDesynchronized` variant is. Per the spec: "A connection
has an implicit binary state: synchronized or desynchronized. It starts
synchronized. Any transport failure encountered while a message is only
partially sent or partially received moves the connection to desynchronized
and this transition is permanent. Once desynchronized, any subsequent
operation attempted on that connection must immediately fail with the
desynchronization error rather than attempting further I/O."
-/

/-- Modelled from the spec: the single connection object owning the
desynchronization flag; absent from src/. -/
structure Conn where
  desynchronized : Bool
deriving DecidableEq

/-- Modelled from the spec: a fresh connection "starts synchronized". -/
def Conn.new : Conn := { desynchronized := false }

/-- Modelled from the spec: what the transport does during one attempted
operation — either it carries the whole message, or it fails (partial write,
partial read, reset, timeout) while a message is only partially transferred,
reporting the given I/O failure. -/
inductive TransportEvent where
  | delivered
  | failedMidMessage (e : IoError)
deriving DecidableEq

/-- Outcome of attempting one operation on a connection: the connection
afterwards, the operation's result, and whether the transport was touched. -/
structure OpOutcome where
  conn : Conn
  result : Except Error Unit
  touched_transport : Bool

/-- Modelled from the spec: one operation attempted on a connection. A
desynchronized connection fails immediately with `Error.StreamDesynchronized`
and performs no I/O; a synchronized one uses the transport, and a transport
failure mid-message desynchronizes it and surfaces the I/O failure. -/
def Conn.operate (c : Conn) (ev : TransportEvent) : OpOutcome :=
  if c.desynchronized then
    { conn := c, result := .error .StreamDesynchronized, touched_transport := false }
  else
    match ev with
    | .delivered =>
        { conn := c, result := .ok (), touched_transport := true }
    | .failedMidMessage e =>
        { conn := { desynchronized := true }, result := .error (.IoError e),
          touched_transport := true }

/-- Run a sequence of attempted operations, threading the connection state. -/
def Conn.run (c : Conn) (evs : List TransportEvent) : Conn :=
  evs.foldl (fun c ev => (c.operate ev).conn) c

/-!
## SQLSTATE category table

Modelled from the spec: `sqlstate.rs` is generated into OUT_DIR at build time
(src/error.rs line 13 includes it) and is not under src/. Per the spec it is
"a static mapping from 5-character status codes to human-readable category
names (e.g., a code beginning with a given 2-character class indicates
'integrity constraint violation')", covering "the full published code space"
and mapping "unknown-but-well-formed codes to a generic 'unknown error class'
bucket rather than failing".
-/

/-- Association-list lookup used by the category table. -/
def assocFind {α β : Type} [DecidableEq α] : List (α × β) → α → Option β
  | [], _ => none
  | p :: rest, k => if k = p.1 then some p.2 else assocFind rest k

/-- Modelled from the spec: the published 2-character SQLSTATE class codes and
their human-readable category names (PostgreSQL status-code standard). -/
def sqlstate_class_table : List ((Char × Char) × String) :=
  [(('0', '0'), "successful completion"),
   (('0', '1'), "warning"),
   (('0', '2'), "no data"),
   (('0', '3'), "sql statement not yet complete"),
   (('0', '8'), "connection exception"),
   (('0', '9'), "triggered action exception"),
   (('0', 'A'), "feature not supported"),
   (('0', 'B'), "invalid transaction initiation"),
   (('0', 'F'), "locator exception"),
   (('0', 'L'), "invalid grantor"),
   (('0', 'P'), "invalid role specification"),
   (('0', 'Z'), "diagnostics exception"),
   (('2', '0'), "case not found"),
   (('2', '1'), "cardinality violation"),
   (('2', '2'), "data exception"),
   (('2', '3'), "integrity constraint violation"),
   (('2', '4'), "invalid cursor state"),
   (('2', '5'), "invalid transaction state"),
   (('2', '6'), "invalid sql statement name"),
   (('2', '7'), "triggered data change violation"),
   (('2', '8'), "invalid authorization specification"),
   (('2', 'B'), "dependent privilege descriptors still exist"),
   (('2', 'D'), "invalid transaction termination"),
   (('2', 'F'), "sql routine exception"),
   (('3', '4'), "invalid cursor name"),
   (('3', '8'), "external routine exception"),
   (('3', '9'), "external routine invocation exception"),
   (('3', 'B'), "savepoint exception"),
   (('3', 'D'), "invalid catalog name"),
   (('3', 'F'), "invalid schema name"),
   (('4', '0'), "transaction rollback"),
   (('4', '2'), "syntax error or access rule violation"),
   (('4', '4'), "with check option violation"),
   (('5', '3'), "insufficient resources"),
   (('5', '4'), "program limit exceeded"),
   (('5', '5'), "object not in prerequisite state"),
   (('5', '7'), "operator intervention"),
   (('5', '8'), "system error"),
   (('F', '0'), "configuration file error"),
   (('H', 'V'), "foreign data wrapper error"),
   (('P', '0'), "plpgsql error"),
   (('X', 'X'), "internal error")]

/-- Modelled from the spec: look a status code up in the read-only category
table. The code's leading 2-character class selects the category; any code
whose class is not in the table falls into the "unknown error class" bucket. -/
def sqlstate_category (code : String) : String :=
  match code.data with
  | c0 :: c1 :: _ =>
    match assocFind sqlstate_class_table (c0, c1) with
    | some cat => cat
    | none => "unknown error class"
  | _ => "unknown error class"

/-- A code is well-formed when it is exactly 5 alphanumeric characters. -/
def sqlstate_well_formed (code : String) : Bool :=
  code.data.length = 5 && code.data.all (fun c => c.isAlphanum)

/-!
## TLS negotiation contract (src/tls/mod.rs)

`Stream` is re-exported from `priv_io`, which is not under src/; the spec
describes it as "any object offering byte-level read/write plus a way to
obtain/mutate access to the innermost raw transport handle". The two traits
`TlsStream` and `TlsHandshake` are pure capability contracts with no
implementation under src/ (the openssl and security-framework backends are
feature-gated modules that are absent), so a backend is modelled as any
function matching the `tls_handshake` signature.
-/

/-- Modelled from the spec: the unencrypted `Stream` from `priv_io`: byte-level
input and output plus the innermost raw transport handle. -/
structure Stream where
  handle : Nat
  inBytes : List Nat
  outBytes : List Nat
deriving DecidableEq

/-- Modelled from the spec: a fully-initialized object satisfying the
encrypted-stream capability (`TlsStream`, src/tls/mod.rs lines 14-20): it
wraps the underlying `Stream` and carries the decrypted bytes it will yield
to reads. -/
structure TlsStreamObj where
  stream : Stream
  plaintext : List Nat
deriving DecidableEq

/-- `TlsStream::get_ref` (src/tls/mod.rs line 16): read-only access to the
underlying `Stream`. -/
def TlsStreamObj.get_ref (t : TlsStreamObj) : Stream := t.stream

/-- `TlsStream::get_mut` (src/tls/mod.rs line 19): mutable access to the
underlying `Stream`, modelled by applying an update to it. -/
def TlsStreamObj.get_mut (t : TlsStreamObj) (f : Stream → Stream) : TlsStreamObj :=
  { t with stream := f t.stream }

/-- The `Read` capability of a `TlsStream`: yield up to `n` decrypted bytes. -/
def TlsStreamObj.read (t : TlsStreamObj) (n : Nat) : List Nat × TlsStreamObj :=
  (t.plaintext.take n, { t with plaintext := t.plaintext.drop n })

/-- The `Write` capability of a `TlsStream`: bytes written pass through to the
underlying transport's output. -/
def TlsStreamObj.write (t : TlsStreamObj) (bs : List Nat) : TlsStreamObj :=
  { t with stream := { t.stream with outBytes := t.stream.outBytes ++ bs } }

/-- The opaque handshake failure (`Box<Error + Sync + Send>`,
src/tls/mod.rs line 33): diagnosable, i.e. it carries a description. As plain
immutable data it is safely shareable across tasks, matching the Sync + Send
bound. -/
structure TlsFailure where
  description : String
deriving DecidableEq

/-- A TLS backend implementing the handshake capability
(`TlsHandshake::tls_handshake`, src/tls/mod.rs lines 30-33): given the host
and an unencrypted stream, it returns either an encrypted-stream object or an
opaque diagnosable failure. -/
def TlsHandshake : Type := String → Stream → Except TlsFailure TlsStreamObj

/-!
## Auxiliary definitions used by the theorems
-/

/-- The constructor tag of a `ConnectError`, in source declaration order;
two values are "of the same variant" when their tags agree. -/
def ConnectError.ctorTag : ConnectError → Nat
  | .InvalidUrl _ => 0
  | .MissingUser => 1
  | .DbError _ => 2
  | .MissingPassword => 3
  | .UnsupportedAuthentication => 4
  | .NoSslSupport => 5
  | .SslError _ => 6
  | .IoError _ => 7
  | .BadResponse => 8

/-- The constructor tag of an `Error`, in source declaration order. -/
def Error.ctorTag : Error → Nat
  | .DbError _ => 0
  | .IoError _ => 1
  | .StreamDesynchronized => 2
  | .WrongType _ => 3
  | .InvalidColumn => 4
  | .WasNull => 5
  | .BadResponse => 6
  | .BadData => 7

/-- A concrete server-reported error, used to instantiate statements. -/
def sampleDbError : DbError :=
  { code := "23505", message := "duplicate key", severity := "ERROR",
    detail := none, hint := none, position := none,
    schema := none, table := none, column := none, constraint := none }

/-- A concrete transport failure, used to instantiate statements. -/
def sampleIoError : IoError := { content := "connection reset by peer" }

/-- A concrete TLS-layer failure, used to instantiate statements. -/
def sampleSslError : SslError := { content := "certificate verify failed" }

/-- A concrete wire-protocol type descriptor, used to instantiate statements. -/
def samplePgType : PgType := { debugRepr := "Int4" }

/-!
## Theorems
-/

/-- C2: for every string s, formatting `ConnectError.InvalidUrl s` with Display
yields exactly the category description, then ": ", then s verbatim; in
particular on "postgres://bad" it yields "Invalid URL: postgres://bad". -/
theorem invalid_url_display (s : String) :
    ConnectError.display (.InvalidUrl s)
      = ConnectError.description (.InvalidUrl s) ++ ": " ++ s
    ∧ ConnectError.display (.InvalidUrl "postgres://bad")
      = "Invalid URL: postgres://bad" := by
  constructor
  · rw [String.append_assoc]
    rfl
  · decide

/-- C3: wrapping an underlying failure (DbError, IoError or SslError) into the
corresponding `ConnectError`/`Error` variant and retrieving its cause yields
exactly the wrapped failure (wrap-then-unwrap preserves content). -/
theorem cause_round_trip :
    (∀ d : DbError, (ConnectError.DbError d).cause = some (.db d))
    ∧ (∀ s : SslError, (ConnectError.SslError s).cause = some (.ssl s))
    ∧ (∀ i : IoError, (ConnectError.IoError i).cause = some (.ioErr i))
    ∧ (∀ d : DbError, (Error.DbError d).cause = some (.db d))
    ∧ (∀ i : IoError, (Error.IoError i).cause = some (.ioErr i)) :=
  ⟨fun _ => rfl, fun _ => rfl, fun _ => rfl, fun _ => rfl, fun _ => rfl⟩

/-- C4: the `FromError` conversions are total and lossless — every underlying
failure maps to exactly its dedicated variant with its content unchanged. -/
theorem from_error_lossless :
    (∀ e : IoError, ConnectError.from_error_io e = .IoError e)
    ∧ (∀ e : DbError, ConnectError.from_error_db e = .DbError e)
    ∧ (∀ e : SslError, ConnectError.from_error_ssl e = .SslError e)
    ∧ (∀ e : DbError, Error.from_error_db e = .DbError e)
    ∧ (∀ e : IoError, Error.from_error_io e = .IoError e) :=
  ⟨fun _ => rfl, fun _ => rfl, fun _ => rfl, fun _ => rfl, fun _ => rfl⟩

/-- C8: the full display of `Error.WrongType t` is the category description
with the observed type appended after it (via ": saw type "), while the
variant carries the type descriptor t as its payload. -/
theorem wrong_type_display (t : PgType) :
    Error.display (.WrongType t)
      = (Error.WrongType t).description ++ ": saw type " ++ t.debugRepr
    ∧ Error.display (.WrongType t) = "Unexpected type: saw type " ++ t.debugRepr := by
  constructor
  · rw [String.append_assoc]
    rfl
  · rw [show ("Unexpected type: saw type " : String)
          = "Unexpected type" ++ ": saw type " by decide, String.append_assoc]
    rfl

/-- C9: every `ConnectError`/`Error` description is non-empty, and is
determined by the variant alone — two values of the same variant have
identical descriptions regardless of payload. -/
theorem description_nonempty_deterministic :
    (∀ e : ConnectError, e.description ≠ "")
    ∧ (∀ e : Error, e.description ≠ "")
    ∧ (∀ a b : ConnectError, a.ctorTag = b.ctorTag → a.description = b.description)
    ∧ (∀ a b : Error, a.ctorTag = b.ctorTag → a.description = b.description) := by
  refine ⟨?_, ?_, ?_, ?_⟩
  · intro e; cases e <;> simp only [ConnectError.description] <;> decide
  · intro e; cases e <;> simp only [Error.description] <;> decide
  · intro a b h
    cases a <;> cases b <;> simp only [ConnectError.ctorTag] at h <;>
      first | rfl | exact absurd h (by decide)
  · intro a b h
    cases a <;> cases b <;> simp only [Error.ctorTag] at h <;>
      first | rfl | exact absurd h (by decide)

/-- Witness for C9 at concrete inputs: same-variant values with different
payloads share a description, and a sample description is non-empty. -/
theorem description_nonempty_deterministic_witness :
    ConnectError.description (.InvalidUrl "a") = ConnectError.description (.InvalidUrl "b")
    ∧ Error.description (.DbError sampleDbError) ≠ "" :=
  ⟨description_nonempty_deterministic.2.2.1 (.InvalidUrl "a") (.InvalidUrl "b") rfl,
   description_nonempty_deterministic.2.1 (.DbError sampleDbError)⟩

/-- C10: for every `ConnectError` other than `InvalidUrl` and every `Error`
other than `WrongType`, Display is exactly the description with nothing
appended — in particular the cause-wrapping variants display none of the
wrapped failure's content. -/
theorem display_eq_description (e : ConnectError) (e' : Error) :
    ((∀ s, e ≠ .InvalidUrl s) → e.display = e.description)
    ∧ ((∀ t, e' ≠ .WrongType t) → e'.display = e'.description) := by
  constructor
  · intro h
    cases e <;> first | exact absurd rfl (h _) | exact String.append_empty _
  · intro h
    cases e' <;> first | exact absurd rfl (h _) | exact String.append_empty _

/-- Witness for C10 at concrete inputs. -/
theorem display_eq_description_witness :
    ConnectError.display .MissingUser = ConnectError.description .MissingUser
    ∧ Error.display .InvalidColumn = Error.description .InvalidColumn :=
  ⟨(display_eq_description .MissingUser .InvalidColumn).1
      (fun _ h => ConnectError.noConfusion h),
   (display_eq_description .MissingUser .InvalidColumn).2
      (fun _ h => Error.noConfusion h)⟩

/-- C1: the desynchronization state machine is one-way and absorbing. A fresh
connection is synchronized; a transport failure mid-message desynchronizes a
synchronized connection; no sequence of operations brings a desynchronized
connection back; every operation attempted on a desynchronized connection
fails immediately with `Error.StreamDesynchronized` without touching the
transport. -/
theorem desync_one_way_absorbing :
    Conn.new.desynchronized = false
    ∧ (∀ (c : Conn) (e : IoError), c.desynchronized = false →
        ((c.operate (.failedMidMessage e)).conn).desynchronized = true)
    ∧ (∀ (c : Conn) (evs : List TransportEvent), c.desynchronized = true →
        (Conn.run c evs).desynchronized = true)
    ∧ (∀ (c : Conn) (ev : TransportEvent), c.desynchronized = true →
        (c.operate ev).result = .error .StreamDesynchronized
        ∧ (c.operate ev).touched_transport = false) := by
  refine ⟨rfl, ?_, ?_, ?_⟩
  · intro c e hc
    simp [Conn.operate, hc]
  · intro c evs hc
    induction evs generalizing c with
    | nil => exact hc
    | cons ev evs ih =>
      have hstay : (c.operate ev).conn = c := by
        simp [Conn.operate, hc]
      show (Conn.run ((c.operate ev).conn) evs).desynchronized = true
      rw [hstay]
      exact ih c hc
  · intro c ev hc
    constructor <;> simp [Conn.operate, hc]

/-- Witness for C1 at concrete inputs: a connection desynchronized by a mid-
message failure rejects a later operation without I/O and stays
desynchronized across further attempts. -/
theorem desync_one_way_absorbing_witness :
    ((Conn.mk true).operate .delivered).result = .error .StreamDesynchronized
    ∧ ((Conn.mk true).operate .delivered).touched_transport = false
    ∧ ((Conn.mk false).operate (.failedMidMessage sampleIoError)).conn.desynchronized = true
    ∧ (Conn.run (Conn.mk true)
        [.delivered, .failedMidMessage sampleIoError, .delivered]).desynchronized = true :=
  ⟨(desync_one_way_absorbing.2.2.2 (Conn.mk true) .delivered rfl).1,
   (desync_one_way_absorbing.2.2.2 (Conn.mk true) .delivered rfl).2,
   desync_one_way_absorbing.2.1 (Conn.mk false) sampleIoError rfl,
   desync_one_way_absorbing.2.2.1 (Conn.mk true)
     [.delivered, .failedMidMessage sampleIoError, .delivered] rfl⟩

/-- C5: `ConnectError` consists of exactly the nine enumerated variants with
their stated payloads, and `Error` of exactly the eight enumerated variants;
each list of one representative per variant is duplicate-free, so the variants
are pairwise distinct. -/
theorem variant_sets :
    (∀ e : ConnectError,
      (∃ s, e = .InvalidUrl s) ∨ e = .MissingUser ∨ (∃ d, e = .DbError d)
      ∨ e = .MissingPassword ∨ e = .UnsupportedAuthentication ∨ e = .NoSslSupport
      ∨ (∃ s, e = .SslError s) ∨ (∃ i, e = .IoError i) ∨ e = .BadResponse)
    ∧ ([ConnectError.InvalidUrl "", .MissingUser, .DbError sampleDbError,
        .MissingPassword, .UnsupportedAuthentication, .NoSslSupport,
        .SslError sampleSslError, .IoError sampleIoError, .BadResponse].Nodup)
    ∧ (∀ e : Error,
      (∃ d, e = .DbError d) ∨ (∃ i, e = .IoError i) ∨ e = .StreamDesynchronized
      ∨ (∃ t, e = .WrongType t) ∨ e = .InvalidColumn ∨ e = .WasNull
      ∨ e = .BadResponse ∨ e = .BadData)
    ∧ ([Error.DbError sampleDbError, .IoError sampleIoError, .StreamDesynchronized,
        .WrongType samplePgType, .InvalidColumn, .WasNull, .BadResponse,
        .BadData].Nodup) := by
  refine ⟨?_, by decide, ?_, by decide⟩
  · intro e
    cases e <;> simp
  · intro e
    cases e <;> simp

/-- A key found in the table through `assocFind` pairs with its stored value,
provided the keys are duplicate-free. -/
theorem assocFind_mem {α β : Type} [DecidableEq α] (l : List (α × β)) (p : α × β)
    (hnd : (l.map Prod.fst).Nodup) (hmem : p ∈ l) : assocFind l p.1 = some p.2 := by
  induction l with
  | nil => cases hmem
  | cons q t ih =>
    rcases List.mem_cons.mp hmem with h | h
    · subst h
      simp [assocFind]
    · have hne : p.1 ≠ q.1 := by
        intro hEq
        have hmap : p.1 ∈ t.map Prod.fst := List.mem_map_of_mem Prod.fst h
        exact (List.nodup_cons.mp hnd).1 (hEq ▸ hmap)
      rw [assocFind, if_neg hne]
      exact ih (List.nodup_cons.mp hnd).2 h

/-- Every value `assocFind` returns comes from the table. -/
theorem assocFind_some_mem {α β : Type} [DecidableEq α] (l : List (α × β)) (k : α)
    (v : β) (h : assocFind l k = some v) : v ∈ l.map Prod.snd := by
  induction l with
  | nil => simp [assocFind] at h
  | cons q t ih =>
    by_cases hk : k = q.1
    · rw [assocFind, if_pos hk] at h
      cases h
      exact List.mem_map_of_mem Prod.snd (List.mem_cons_self q t)
    · rw [assocFind, if_neg hk] at h
      exact List.mem_cons_of_mem _ (ih h)

/-- C6: the SQLSTATE category lookup is total over the published code space —
every code whose 2-character class is in the published table maps to that
class's category, whatever its remaining characters; every code whose
2-character class is absent from the table (so in particular every
well-formed but unrecognized code, such as "ZZ000") maps to the generic
"unknown error class" bucket; and every code maps either to a published
category or to that bucket, never failing. -/
theorem sqlstate_lookup_total :
    (∀ entry ∈ sqlstate_class_table, ∀ rest : List Char,
        sqlstate_category ⟨entry.1.1 :: entry.1.2 :: rest⟩ = entry.2)
    ∧ (∀ (c0 c1 : Char) (rest : List Char),
        assocFind sqlstate_class_table (c0, c1) = none →
        sqlstate_category ⟨c0 :: c1 :: rest⟩ = "unknown error class")
    ∧ (∀ code : String,
        sqlstate_category code ∈ sqlstate_class_table.map Prod.snd
        ∨ sqlstate_category code = "unknown error class")
    ∧ sqlstate_well_formed "ZZ000" = true
    ∧ sqlstate_category "ZZ000" = "unknown error class" := by
  refine ⟨?_, ?_, ?_, by decide, by decide⟩
  · intro entry hmem rest
    have hnd : (sqlstate_class_table.map Prod.fst).Nodup := by decide
    have hfind : assocFind sqlstate_class_table (entry.1.1, entry.1.2) = some entry.2 :=
      assocFind_mem sqlstate_class_table entry hnd hmem
    show (match assocFind sqlstate_class_table (entry.1.1, entry.1.2) with
          | some cat => cat
          | none => "unknown error class") = entry.2
    rw [hfind]
  · intro c0 c1 rest hnone
    show (match assocFind sqlstate_class_table (c0, c1) with
          | some cat => cat
          | none => "unknown error class") = "unknown error class"
    rw [hnone]
  · intro code
    rcases hd : code.data with _ | ⟨c0, _ | ⟨c1, rest⟩⟩
    · right; simp [sqlstate_category, hd]
    · right; simp [sqlstate_category, hd]
    · cases hfind : assocFind sqlstate_class_table (c0, c1) with
      | some cat =>
        left
        simp only [sqlstate_category, hd, hfind]
        exact assocFind_some_mem _ _ _ hfind
      | none =>
        right
        simp only [sqlstate_category, hd, hfind]

/-- Witness for C6 at concrete inputs: a published code resolves to its
class's category, and an unrecognized well-formed code falls into the
unknown bucket through the universal conjunct. -/
theorem sqlstate_lookup_total_witness :
    sqlstate_category "23505" = "integrity constraint violation"
    ∧ sqlstate_category "ZZ000" = "unknown error class" :=
  ⟨sqlstate_lookup_total.1 (('2', '3'), "integrity constraint violation")
    (by decide) ['5', '0', '5'],
   sqlstate_lookup_total.2.1 'Z' 'Z' ['0', '0', '0'] (by decide)⟩

/-- C7: every TLS backend implementing the handshake capability, applied to
any hostname and unencrypted stream, returns either a fully-initialized
encrypted-stream object — readable, writable, and exposing the underlying
`Stream` read-only through get_ref and mutably through get_mut — or an opaque
failure that consists exactly of a description (diagnosable); there is no
third, partially-initialized outcome. -/
theorem tls_handshake_contract (hs : TlsHandshake) (host : String) (s : Stream) :
    (∃ t : TlsStreamObj, hs host s = .ok t
      ∧ t.get_ref = t.stream
      ∧ (∀ f, (t.get_mut f).get_ref = f t.get_ref)
      ∧ (∀ n, (t.read n).1 = t.plaintext.take n ∧ ((t.read n).2).get_ref = t.get_ref)
      ∧ (∀ bs, (t.write bs).get_ref.outBytes = t.get_ref.outBytes ++ bs))
    ∨ (∃ fl : TlsFailure, hs host s = .error fl ∧ fl = TlsFailure.mk fl.description) := by
  cases hs host s with
  | ok t =>
    exact Or.inl ⟨t, rfl, rfl, fun _ => rfl, fun _ => ⟨rfl, rfl⟩, fun _ => rfl⟩
  | error fl =>
    exact Or.inr ⟨fl, rfl, rfl⟩

end RustPostgres
